import Mathlib

/-!
Verification of the autossh-go tunnel engine: a shallow embedding of the
configuration parsers (`internal/config/config.go`), the connection monitor
(`internal/monitor`), the SOCKS5 dynamic tunnel (`internal/tunnel/remote.go`),
the tunnel manager, the relay primitive (`internal/tunnel/local.go`) and the
SSH client guards (`internal/ssh/client.go`), together with theorems settling
the specification claims about them.

Strings are modelled with Lean `String` (a list of characters); Go byte
strings in the SOCKS5 protocol are modelled as `List Nat` with each element
a byte value.  Go `int64`/`time.Duration` arithmetic is modelled on `Int`
with explicit two's-complement wraparound where the source can overflow.
-/

namespace Autossh

/-! ## Go string helpers

`goSplit` models Go `strings.Split(s, sep)` for a single-character
separator: split around every occurrence of the separator; a string without
the separator yields the one-element list `[s]`. -/

/-- Split a character list around every occurrence of `sep`
(model of Go `strings.Split` with a one-character separator). -/
def goSplitChars (sep : Char) : List Char → List (List Char)
  | [] => [[]]
  | c :: t =>
    if c = sep then
      [] :: goSplitChars sep t
    else
      match goSplitChars sep t with
      | [] => [[c]]
      | h :: r => (c :: h) :: r

/-- Go `strings.Split(s, sep)` for a single-character separator. -/
def goSplit (s : String) (sep : Char) : List String :=
  (goSplitChars sep s.data).map String.mk

/-- Go `strings.Contains(s, c)` for a single-character needle: whether
`c` occurs among the characters of `s`. -/
def goContains (s : String) (c : Char) : Bool :=
  decide (c ∈ s.data)

/-! ## internal/config/config.go -/

/-- `config.LocalTunnel`: local port-forward spec (-L). -/
structure LocalTunnel where
  Bind : String
  Target : String
deriving Repr, DecidableEq

/-- `config.RemoteTunnel`: remote port-forward spec (-R). -/
structure RemoteTunnel where
  Bind : String
  Target : String
deriving Repr, DecidableEq

/-- `config.DynamicTunnel`: dynamic (SOCKS5) forward spec (-D). -/
structure DynamicTunnel where
  Bind : String
deriving Repr, DecidableEq

/-- `config.ParseLocalForward`: parse `[bind_address:]port:host:hostport`.
Go returns `(*LocalTunnel, error)`; `none` models the error return. -/
def ParseLocalForward (spec : String) : Option LocalTunnel :=
  match goSplit spec ':' with
  | [port, host, hostport] =>
    some { Bind := "127.0.0.1:" ++ port, Target := host ++ ":" ++ hostport }
  | [bind, port, host, hostport] =>
    some { Bind := bind ++ ":" ++ port, Target := host ++ ":" ++ hostport }
  | _ => none

/-- `config.ParseRemoteForward`: parse `[bind_address:]port:host:hostport`. -/
def ParseRemoteForward (spec : String) : Option RemoteTunnel :=
  match goSplit spec ':' with
  | [port, host, hostport] =>
    some { Bind := "0.0.0.0:" ++ port, Target := host ++ ":" ++ hostport }
  | [bind, port, host, hostport] =>
    some { Bind := bind ++ ":" ++ port, Target := host ++ ":" ++ hostport }
  | _ => none

/-- `config.ParseDynamicForward`: parse `[bind_address:]port`.
The Go function never returns an error; the `Option` mirrors its
`(*DynamicTunnel, error)` signature. -/
def ParseDynamicForward (spec : String) : Option DynamicTunnel :=
  if goContains spec ':' then
    some { Bind := spec }
  else
    some { Bind := "127.0.0.1:" ++ spec }

/-- Modelled from the spec: "every `bind`/`target` is a syntactically valid
`host:port` pair (in particular, the port component is a decimal port
number)".  The repository has no such validator; this predicate renders the
spec's words: the string splits around colons into at least two components,
and the final (port-position) component is a non-empty decimal number of at
most five digits not exceeding 65535. -/
def specValidHostPort (s : String) : Bool :=
  match (goSplitChars ':' s.data).getLast? with
  | none => false
  | some p =>
    (goSplitChars ':' s.data).length ≥ 2 &&
    !p.isEmpty && p.all Char.isDigit &&
    p.foldl (fun acc c => acc * 10 + (c.toNat - 48)) 0 ≤ 65535

/-! ## internal/monitor (monitor.go): backoff arithmetic

`calculateBackoff` operates on Go `time.Duration`, a signed 64-bit integer
count of nanoseconds.  `backoff *= 2` is Go `int64` multiplication, which
wraps around modulo `2^64`; the embedding makes that wraparound explicit. -/

/-- Two's-complement wraparound of an integer into the `int64` range
`[-2^63, 2^63)`, as performed by Go `int64` arithmetic. -/
def wrapInt64 (x : Int) : Int :=
  (x + 2 ^ 63) % 2 ^ 64 - 2 ^ 63

/-- `k` executions of the loop body `backoff *= 2` on an `int64`. -/
def doubleInt64 : Nat → Int → Int
  | 0, b => b
  | k + 1, b => doubleInt64 k (wrapInt64 (2 * b))

/-- `maxBackoff := 60 * time.Second` in nanoseconds. -/
def maxBackoffNs : Int := 60 * 1000000000

/-- `Monitor.calculateBackoff`: double `baseInterval` once per loop
iteration `i = 1, ..., attempt-1` but at most 5 times (`i < 6`), then cap
at 60 seconds.  The loop `for i := 1; i < attempt && i < 6; i++` runs
`min (attempt-1) 5` times.  `baseInterval` is in nanoseconds. -/
def calculateBackoff (attempt : Nat) (baseInterval : Int) : Int :=
  let backoff := doubleInt64 (min (attempt - 1) 5) baseInterval
  if backoff > maxBackoffNs then maxBackoffNs else backoff

/-! ## internal/monitor (monitor.go): the `Monitor.Start` retry loop

The loop is driven by the outcomes of successive `client.Connect()` calls.
A connect failure carries its error (abstracted as a `Nat` tag); a connect
success is followed by a session whose ending decides how the loop
continues: `tunnelMgr.Start()` failure loops straight back to `Connect`
(closing the client, no backoff), an external stop returns `nil`, and a
keepalive failure tears the session down and reconnects (or returns the
error when reconnection is disabled). -/

/-- How a successfully-connected session ends, from the Monitor's view. -/
inductive SessionEnd where
  | tunnelStartFailed
  | stopRequested
  | keepaliveFailed (e : Nat)
deriving Repr, DecidableEq

/-- One iteration's driving event: the outcome of `client.Connect()`,
and, on success, how the resulting session ends. -/
inductive MonEvent where
  | failed (e : Nat)
  | succeededThen (s : SessionEnd)
deriving Repr, DecidableEq

/-- Result of running the Monitor loop on a finite event trace. -/
inductive MonOutcome where
  | fatal (e : Nat)
  | stopped
  | pending (retryCount : Nat)
deriving Repr, DecidableEq

/-- `Monitor.Start` on a finite trace of events, threading `retryCount`.
Returns the list of retry counts at which a backoff wait was performed
(the wait duration is `calculateBackoff` of that count) together with the
loop's outcome; `.pending` means the trace was exhausted mid-loop. -/
def runMonitor (enabled : Bool) (maxRetries : Nat) :
    Nat → List MonEvent → List Nat × MonOutcome
  | rc, [] => ([], .pending rc)
  | rc, .failed e :: rest =>
    if !enabled then
      ([], .fatal e)
    else if maxRetries > 0 ∧ rc + 1 ≥ maxRetries then
      ([], .fatal e)
    else
      let (bs, o) := runMonitor enabled maxRetries (rc + 1) rest
      ((rc + 1) :: bs, o)
  | _rc, .succeededThen s :: rest =>
    -- successful connect: retryCount = 0 before the session runs
    match s with
    | .tunnelStartFailed => runMonitor enabled maxRetries 0 rest
    | .stopRequested => ([], .stopped)
    | .keepaliveFailed e =>
      if !enabled then ([], .fatal e)
      else runMonitor enabled maxRetries 0 rest

/-! ## Go `net.IP.String` (net/ip.go), used by the SOCKS5 request decoder

`readRequest` renders 4-byte and 16-byte addresses with `net.IP.String()`:
a 4-byte address (or a 16-byte IPv4-mapped `::ffff:a.b.c.d` address, via
`To4`) prints as dotted decimal; any other 16-byte address prints in RFC
5952 form (lowercase hex groups without leading zeros, the leftmost longest
run of two or more zero groups compressed to `::`). -/

/-- `net.IP.To4`: a 4-byte slice is returned unchanged; a 16-byte slice
whose first ten bytes are zero and whose bytes 10 and 11 are `0xff` yields
its last four bytes; anything else yields `nil` (`none`). -/
def ipTo4 (b : List Nat) : Option (List Nat) :=
  if b.length = 4 then some b
  else if b.length = 16 && b.take 10 == List.replicate 10 0 &&
      b.getD 10 0 == 0xff && b.getD 11 0 == 0xff then
    some (b.drop 12)
  else none

/-- Dotted-decimal rendering of a 4-byte address, Go `ubtoa` per byte. -/
def dotted4 (b : List Nat) : String :=
  match b with
  | [x, y, z, w] =>
    Nat.repr x ++ "." ++ Nat.repr y ++ "." ++ Nat.repr z ++ "." ++ Nat.repr w
  | _ => ""

/-- Lowercase hexadecimal of a group value without leading zeros
(Go `appendHex`; `0` prints as `"0"`). -/
def hexStr (n : Nat) : String :=
  String.mk (Nat.toDigits 16 n)

/-- Two-digit lowercase hex of one byte (Go `hexString`, per byte). -/
def byteHex2 (b : Nat) : String :=
  String.mk [Nat.digitChar (b / 16 % 16), Nat.digitChar (b % 16)]

/-- Pair up bytes into 16-bit groups: Go `(uint32(p[i])<<8)|uint32(p[i+1])`
for `i = 0, 2, 4, ...`. -/
def bytesToGroups : List Nat → List Nat
  | b1 :: b2 :: t => (b1 * 256 + b2) :: bytesToGroups t
  | _ => []

/-- Number of leading zero groups of a group list (the inner
`for j < 16 && p[j] == 0 && p[j+1] == 0` scan of `net.IP.String`). -/
def leadZeroGroups : List Nat → Nat
  | [] => 0
  | g :: t => if g = 0 then leadZeroGroups t + 1 else 0

/-- The zero-run scan of `net.IP.String` over the group list: track the
leftmost longest run under strict improvement only, so ties keep the
leftmost.  `pos` is the index of the head of `gs` in the full list; `best`
is `(start, length)` with length `0` for "no run found yet".  Go resumes
its scan after each run's end; this scan also visits positions inside a
run, but a run's proper suffixes are strictly shorter and start later, so
under strict improvement they never displace the run itself and the chosen
best is the same. -/
def bestZeroRun (gs : List Nat) (pos : Nat) (best : Nat × Nat) : Nat × Nat :=
  match gs with
  | [] => best
  | g :: t =>
    let best' :=
      if g = 0 ∧ 1 + leadZeroGroups t > best.2 then (pos, 1 + leadZeroGroups t)
      else best
    bestZeroRun t (pos + 1) best'

/-- Join hex groups with `":"` separators, as `net.IP.String` builds its
output buffer. -/
def joinColon : List String → String
  | [] => ""
  | [s] => s
  | s :: t => s ++ ":" ++ joinColon t

/-- RFC 5952 rendering of 16 bytes that are not IPv4-mapped: hex groups
joined by `":"`, with the chosen zero run (length at least two groups —
`::` must not shorten a single zero group) replaced by `"::"`. -/
def ip6Format (b : List Nat) : String :=
  let gs := bytesToGroups b
  let r := bestZeroRun gs 0 (0, 0)
  if r.2 ≥ 2 then
    joinColon ((gs.take r.1).map hexStr) ++ "::" ++
      joinColon ((gs.drop (r.1 + r.2)).map hexStr)
  else
    joinColon (gs.map hexStr)

/-- Go `net.IP.String()`: empty prints `"<nil>"`; a `To4`-representable
address prints dotted decimal; a non-16-byte slice prints `"?"` plus raw
hex; otherwise RFC 5952 form. -/
def goIPString (b : List Nat) : String :=
  if b.length = 0 then "<nil>"
  else match ipTo4 b with
  | some q => dotted4 q
  | none =>
    if b.length ≠ 16 then "?" ++ String.join (b.map byteHex2)
    else ip6Format b

/-! ## internal/tunnel/remote.go: the SOCKS5 dynamic tunnel -/

/-- SOCKS5 protocol version byte. -/
def socks5Version : Nat := 0x05

/-- "no authentication" method byte. -/
def authNone : Nat := 0x00

/-- "no acceptable methods" reply byte. -/
def authNoAccept : Nat := 0xFF

/-- CONNECT command byte. -/
def cmdConnect : Nat := 0x01

/-- IPv4 address type byte. -/
def addrTypeIPv4 : Nat := 0x01

/-- domain-name address type byte. -/
def addrTypeDomain : Nat := 0x03

/-- IPv6 address type byte. -/
def addrTypeIPv6 : Nat := 0x04

/-- "succeeded" reply code. -/
def repSuccess : Nat := 0x00

/-- "host unreachable" reply code. -/
def repHostUnreach : Nat := 0x04

/-- "command not supported" reply code. -/
def repCmdNotSupported : Nat := 0x07

/-- "address type not supported" reply code. -/
def repAddrNotSupported : Nat := 0x08

/-- `io.ReadFull(conn, make([]byte, n))` on a byte stream modelled as a
list: `n` bytes and the remainder, or `none` when the stream is short. -/
def readN (n : Nat) (input : List Nat) : Option (List Nat × List Nat) :=
  if n ≤ input.length then some (input.take n, input.drop n) else none

/-- Go `string(bytes)`: the bytes of the domain name as a string
(characters taken byte-for-byte). -/
def stringOfBytes (bs : List Nat) : String :=
  String.mk (bs.map Char.ofNat)

/-- Go `*net.TCPAddr`: an IP byte slice (`none` for a nil IP) and a port. -/
structure GoTCPAddr where
  IP : Option (List Nat)
  Port : Int
deriving Repr, DecidableEq

/-- Go `int` → `uint16` conversion: the low 16 bits. -/
def uint16OfInt (p : Int) : Nat :=
  (p % 65536).toNat

/-- `DynamicTunnel.sendReply`: the bytes written for one SOCKS5 reply —
version, reply code, reserved zero, IPv4 address type, then either the
`To4` form of the address (IPv4-zero when not IPv4-representable) and the
big-endian port, or six zero bytes when no address was supplied. -/
def sendReply (rep : Nat) (addr : Option GoTCPAddr) : List Nat :=
  let reply := [socks5Version, rep, 0x00, addrTypeIPv4]
  match addr with
  | some a =>
    match a.IP with
    | some ipb =>
      let ip := (ipTo4 ipb).getD [0, 0, 0, 0]
      let u := uint16OfInt a.Port
      reply ++ ip ++ [u / 256, u % 256]
    | none => reply ++ [0, 0, 0, 0, 0, 0]
  | none => reply ++ [0, 0, 0, 0, 0, 0]

/-- Result of the handshake phase: the bytes written to the client, whether
processing continues to the request phase, and the unread input. -/
structure HandshakeResult where
  output : List Nat
  ok : Bool
  rest : List Nat
deriving Repr, DecidableEq

/-- `DynamicTunnel.handshake`: read two bytes (version, method count); a
version other than 5 fails without a reply; read `count` method bytes; if
`0x00` is absent reply `(5, 0xFF)` and fail, else reply `(5, 0x00)` and
continue. -/
def handshake (input : List Nat) : HandshakeResult :=
  match readN 2 input with
  | none => ⟨[], false, []⟩
  | some (hdr, rest) =>
    let ver := hdr.getD 0 0
    let numMethods := hdr.getD 1 0
    if ver ≠ socks5Version then ⟨[], false, rest⟩
    else match readN numMethods rest with
    | none => ⟨[], false, []⟩
    | some (methods, rest2) =>
      -- the `hasNoAuth` scan over the method list
      if authNone ∈ methods then
        ⟨[socks5Version, authNone], true, rest2⟩
      else
        ⟨[socks5Version, authNoAccept], false, rest2⟩

/-- Tail of `DynamicTunnel.readRequest`: read the two-byte big-endian port
and compose `fmt.Sprintf("%s:%d", host, port)`. -/
def finishRequest (host : String) (rest : List Nat) :
    List Nat × Option String :=
  match readN 2 rest with
  | none => ([], none)
  | some (pb, _) =>
    let port := pb.getD 0 0 * 256 + pb.getD 1 0
    ([], some (host ++ ":" ++ Nat.repr port))

/-- `DynamicTunnel.readRequest`: read the four-byte header (version,
command, reserved, address type); reject non-CONNECT commands with reply
code 7; decode the destination by address type (IPv4 4 bytes, domain
length-prefixed bytes, IPv6 16 bytes, otherwise reply code 8); then read
the big-endian port.  Returns the reply bytes written during this phase and
the target string (`none` when the connection is dropped). -/
def readRequest (input : List Nat) : List Nat × Option String :=
  match readN 4 input with
  | none => ([], none)
  | some (hdr, rest) =>
    let ver := hdr.getD 0 0
    let cmd := hdr.getD 1 0
    let atyp := hdr.getD 3 0
    if ver ≠ socks5Version then ([], none)
    else if cmd ≠ cmdConnect then (sendReply repCmdNotSupported none, none)
    else if atyp = addrTypeIPv4 then
      match readN 4 rest with
      | none => ([], none)
      | some (addr, rest2) => finishRequest (goIPString addr) rest2
    else if atyp = addrTypeDomain then
      match readN 1 rest with
      | none => ([], none)
      | some (lenb, rest2) =>
        match readN (lenb.getD 0 0) rest2 with
        | none => ([], none)
        | some (dom, rest3) => finishRequest (stringOfBytes dom) rest3
    else if atyp = addrTypeIPv6 then
      match readN 16 rest with
      | none => ([], none)
      | some (addr, rest2) => finishRequest (goIPString addr) rest2
    else (sendReply repAddrNotSupported none, none)

/-- The connect-and-reply step of `DynamicTunnel.handleConnection`: when
the dial through the transport fails, reply "host unreachable" with no
address; when it succeeds, reply "succeeded" echoing the local accept
address. -/
def connectPhaseReply (dialOk : Bool) (localAddr : GoTCPAddr) : List Nat :=
  if dialOk then sendReply repSuccess (some localAddr)
  else sendReply repHostUnreach none

/-! ## internal/tunnel (manager.go): the tunnel Manager -/

/-- `config.TunnelsConfig`: the three lists of forward specifications. -/
structure TunnelsConfig where
  Local : List LocalTunnel
  Remote : List RemoteTunnel
  Dynamic : List DynamicTunnel
deriving Repr, DecidableEq

/-- One constructed endpoint, tagged by its kind (the Manager's `Tunnel`
interface, variants `LocalTunnel`/`RemoteTunnel`/`DynamicTunnel`). -/
inductive Tunnel where
  | local (s : LocalTunnel)
  | remote (s : RemoteTunnel)
  | dynamic (s : DynamicTunnel)
deriving Repr, DecidableEq

/-- The endpoint-construction phase of `Manager.Start`: starting from an
empty slice, append one endpoint per local spec, then per remote spec, then
per dynamic spec. -/
def buildTunnels (cfg : TunnelsConfig) : List Tunnel :=
  let ts := cfg.Local.foldl (fun acc s => acc ++ [Tunnel.local s]) []
  let ts := cfg.Remote.foldl (fun acc s => acc ++ [Tunnel.remote s]) ts
  cfg.Dynamic.foldl (fun acc s => acc ++ [Tunnel.dynamic s]) ts

/-- The Manager's startup grace window, `100 * time.Millisecond`. -/
def graceWindowMillis : Nat := 100

/-- Which of the two `select` arms of `Manager.Start` fires first: a
startup error arriving on `errChan` within the grace window, or the
window's timeout. -/
inductive StartRace where
  | failureFirst (e : Nat)
  | windowElapsed
deriving Repr, DecidableEq

/-- The outcome phase of `Manager.Start` (grace-window variant): with no
endpoints it returns `nil` at once; otherwise a startup failure inside the
window cancels the session context and returns that error, and an elapsed
window returns `nil` with the endpoints left running.  The first component
records whether the session context was cancelled. -/
def managerStart (ts : List Tunnel) (race : StartRace) : Bool × Option Nat :=
  if ts.isEmpty then (false, none)
  else
    match race with
    | .failureFirst e => (true, some e)
    | .windowElapsed => (false, none)

/-! ## internal/tunnel/local.go: the relay primitive -/

/-- Whether a relay destination is a `*net.TCPConn` (the type assertion in
`copyFunc`) or some other `net.Conn` (an SSH channel connection). -/
inductive ConnKind where
  | tcp
  | other
deriving Repr, DecidableEq

/-- Abstract error returned by `io.Copy`: end of stream, an
already-closed connection, or any other I/O error. -/
inductive CopyErr where
  | eof
  | closed
  | ioErr (tag : Nat)
deriving Repr, DecidableEq

/-- `isClosedError`: true exactly for `io.EOF` and `net.ErrClosed`
(`nil` is not a closed error). -/
def isClosedError : Option CopyErr → Bool
  | none => false
  | some .eof => true
  | some .closed => true
  | some (.ioErr _) => false

/-- What one `copyFunc` invocation did after its `io.Copy` returned. -/
structure CopyOutcome where
  reported : Bool
  closedWrite : Bool
deriving Repr, DecidableEq

/-- `copyFunc(dst, src)` of `bidirectionalCopy`: log (report) the copy
error only when it is non-nil and not a closed-connection error, then
half-close the destination's write side — but only when the destination is
a `*net.TCPConn`. -/
def copyFunc (dstKind : ConnKind) (copyErr : Option CopyErr) : CopyOutcome :=
  { reported := copyErr.isSome && !isClosedError copyErr
    closedWrite := dstKind == ConnKind.tcp }

/-- Result of one `bidirectionalCopy` run. -/
structure RelayResult where
  toConn1 : CopyOutcome
  toConn2 : CopyOutcome
  returnedBeforeBothDone : Bool
deriving Repr, DecidableEq

/-- `bidirectionalCopy`: run `copyFunc` for each direction (`errInto1` is
the `io.Copy` outcome of the direction writing into `conn1`), and return
when both directions are done or when the context is cancelled first
(`cancelledFirst` records which arm of the final `select` fired). -/
def bidirectionalCopy (k1 k2 : ConnKind) (errInto1 errInto2 : Option CopyErr)
    (cancelledFirst : Bool) : RelayResult :=
  { toConn1 := copyFunc k1 errInto1
    toConn2 := copyFunc k2 errInto2
    returnedBeforeBothDone := cancelledFirst }

/-! ## internal/ssh/client.go: guards on an unconnected client -/

/-- The mutable state of `ssh.Client`: the underlying `*ssh.Client`
connection handle (abstracted; `none` models a nil handle) and the
`closed` flag. -/
structure ClientState where
  conn : Option Nat
  closed : Bool
deriving Repr, DecidableEq

/-- `Client.Dial`: with a nil connection return the "SSH未连接" (not
connected) error; otherwise delegate to the connection (`underlying` is the
delegated result).  The state is returned unchanged: the method only takes
a read lock. -/
def clientDial (s : ClientState) (underlying : Except String Nat) :
    Except String Nat × ClientState :=
  match s.conn with
  | none => (.error "SSH未连接", s)
  | some _ => (underlying, s)

/-- `Client.Listen`: same nil-connection guard as `Client.Dial`. -/
def clientListen (s : ClientState) (underlying : Except String Nat) :
    Except String Nat × ClientState :=
  match s.conn with
  | none => (.error "SSH未连接", s)
  | some _ => (underlying, s)

/-- `Client.KeepAlive`: with a nil connection return the "SSH未连接"
error; otherwise the result of `SendRequest` (`none` for success). -/
def clientKeepAlive (s : ClientState) (underlying : Option String) :
    Option String × ClientState :=
  match s.conn with
  | none => (some "SSH未连接", s)
  | some _ => (underlying, s)

/-! ## Supporting lemmas -/

/-- Wrapping an integer already inside the `int64` range is the identity. -/
theorem wrapInt64_eq_self {x : Int} (h1 : -(2 ^ 63) ≤ x) (h2 : x < 2 ^ 63) :
    wrapInt64 x = x := by
  unfold wrapInt64
  rw [Int.emod_eq_of_lt (by linarith) (by norm_num; linarith)]
  ring

/-- As long as the final product stays inside the `int64` range, the
doubling loop computes exact multiplication by `2 ^ k`. -/
theorem doubleInt64_eq_mul_pow (k : Nat) :
    ∀ b : Int, -(2 ^ 63) ≤ b * 2 ^ k → b * 2 ^ k < 2 ^ 63 →
      doubleInt64 k b = b * 2 ^ k := by
  induction k with
  | zero => intro b _ _; simp [doubleInt64]
  | succ k ih =>
    intro b hlo hhi
    have hpow : (1 : Int) ≤ 2 ^ k := by exact_mod_cast Nat.one_le_two_pow
    have hsucc : b * 2 ^ (k + 1) = 2 * b * 2 ^ k := by ring
    have hb2lo : -(2 ^ 63) ≤ 2 * b := by
      rcases le_or_lt 0 b with hb | hb
      · nlinarith
      · nlinarith
    have hb2hi : 2 * b < 2 ^ 63 := by
      rcases le_or_lt 0 b with hb | hb
      · nlinarith
      · nlinarith
    have hw : wrapInt64 (2 * b) = 2 * b := wrapInt64_eq_self hb2lo hb2hi
    calc doubleInt64 (k + 1) b = doubleInt64 k (wrapInt64 (2 * b)) := rfl
      _ = doubleInt64 k (2 * b) := by rw [hw]
      _ = 2 * b * 2 ^ k := ih (2 * b) (by nlinarith) (by nlinarith)
      _ = b * 2 ^ (k + 1) := by ring

/-- Running the Monitor loop from retry count `rc` on `es.length + 1`
consecutive connect failures, where the last one makes the incremented
count reach `maxRetries = m`: a backoff is waited at each count
`rc+1, ..., rc+es.length` and the loop ends fatally with the final error,
with no further backoff. -/
theorem runMonitor_fail_trace (m : Nat) (hm : 0 < m) (es : List Nat) (e : Nat) :
    ∀ rc : Nat, rc + es.length + 1 = m →
      runMonitor true m rc ((es ++ [e]).map MonEvent.failed) =
        (List.range' (rc + 1) es.length, MonOutcome.fatal e) := by
  induction es with
  | nil =>
    intro rc h
    simp only [List.length_nil] at h
    simp [runMonitor, hm, show m ≤ rc + 1 by omega]
  | cons f t ih =>
    intro rc h
    simp only [List.length_cons] at h ⊢
    simp only [List.cons_append, List.map_cons]
    rw [runMonitor]
    rw [if_neg (by omega : ¬ (m > 0 ∧ rc + 1 ≥ m))]
    rw [ih (rc + 1) (by omega), List.range'_succ]
    simp

/-! ## Claim theorems -/

/-- C1 counterexample: at `attempt = 2` and base interval `2^62`
nanoseconds the doubling overflows `int64` and `calculateBackoff` returns
the wrapped value `-2^63` instead of `min (2^62 * 2) (60s)`, so the
formula claimed for every base interval fails. -/
theorem calculateBackoff_overflow_counterexample :
    calculateBackoff 2 (2 ^ 62) ≠
      min ((2 ^ 62) * 2 ^ min (2 - 1) 5) ((60 : Int) * 1000000000) := by
  decide

/-- C1 (amended): for every retry attempt `n ≥ 1` and every base interval
`b` whose scaled value `b * 2 ^ min (n-1) 5` stays inside the `int64`
range (no overflow), the backoff delay equals
`min (b * 2 ^ min (n-1) 5) (60 s)`; in particular, for `b = 5 s` the
delays for attempts 1 through 7 are 5, 10, 20, 40, 60, 60, 60 seconds. -/
theorem calculateBackoff_formula :
    (∀ (n : Nat) (b : Int), 1 ≤ n →
      -(2 ^ 63) ≤ b * 2 ^ min (n - 1) 5 → b * 2 ^ min (n - 1) 5 < 2 ^ 63 →
      calculateBackoff n b =
        min (b * 2 ^ min (n - 1) 5) (60 * 1000000000)) ∧
    ([1, 2, 3, 4, 5, 6, 7].map
        (fun n => calculateBackoff n (5 * 1000000000)) =
      [5000000000, 10000000000, 20000000000, 40000000000, 60000000000,
        60000000000, 60000000000]) := by
  constructor
  · intro n b _hn hlo hhi
    simp only [calculateBackoff, maxBackoffNs]
    rw [doubleInt64_eq_mul_pow (min (n - 1) 5) b hlo hhi]
    rcases le_or_lt (b * 2 ^ min (n - 1) 5) ((60 : Int) * 1000000000)
      with h | h
    · rw [if_neg (not_lt.mpr h), min_eq_left h]
    · rw [if_pos h, min_eq_right (le_of_lt h)]
  · decide

/-- C1 witness: attempt 7 with the default 5-second base interval waits
the 60-second cap. -/
theorem calculateBackoff_formula_witness :
    calculateBackoff 7 (5 * 1000000000) = 60 * 1000000000 := by
  have h := calculateBackoff_formula.1 7 (5 * 1000000000)
    (by decide) (by decide) (by decide)
  exact h.trans (by decide)

/-- C2: with reconnection enabled and `maxRetries = m > 0`, starting from
`retryCount = 0`, a run of `m` consecutive connect failures waits a
backoff at counts `1, ..., m-1` and terminates fatally with the last
connect error exactly when the incremented count reaches `m`, with no
backoff after the final failure; with reconnection disabled the first
connect failure terminates at once with that error; and any successful
connect resets the retry count to 0 for the rest of the run. -/
theorem monitor_retry_budget :
    (∀ (m : Nat) (es : List Nat) (e : Nat), 0 < m → es.length + 1 = m →
      runMonitor true m 0 ((es ++ [e]).map MonEvent.failed) =
        (List.range' 1 es.length, MonOutcome.fatal e)) ∧
    (∀ (maxR rc e : Nat) (rest : List MonEvent),
      runMonitor false maxR rc (MonEvent.failed e :: rest) =
        ([], MonOutcome.fatal e)) ∧
    (∀ (enabled : Bool) (maxR rc e : Nat) (rest : List MonEvent),
      runMonitor enabled maxR rc
          (MonEvent.succeededThen SessionEnd.tunnelStartFailed :: rest) =
        runMonitor enabled maxR 0 rest ∧
      runMonitor true maxR rc
          (MonEvent.succeededThen (SessionEnd.keepaliveFailed e) :: rest) =
        runMonitor true maxR 0 rest) := by
  refine ⟨?_, ?_, ?_⟩
  · intro m es e hm hlen
    exact runMonitor_fail_trace m hm es e 0 (by omega)
  · intro maxR rc e rest
    simp [runMonitor]
  · intro enabled maxR rc e rest
    constructor
    · rw [runMonitor]
    · rw [runMonitor]
      simp

/-- C2 witness: `maxRetries = 3` terminates fatally on the third
consecutive failure after backoffs at counts 1 and 2; disabled
reconnection fails at once; a success resets the count. -/
theorem monitor_retry_budget_witness :
    runMonitor true 3 0 [MonEvent.failed 10, MonEvent.failed 11,
        MonEvent.failed 12] = ([1, 2], MonOutcome.fatal 12) ∧
    runMonitor false 5 4 [MonEvent.failed 9] = ([], MonOutcome.fatal 9) ∧
    runMonitor true 4 2 [MonEvent.succeededThen SessionEnd.tunnelStartFailed,
        MonEvent.failed 7] = runMonitor true 4 0 [MonEvent.failed 7] := by
  refine ⟨?_, ?_, ?_⟩
  · have h := monitor_retry_budget.1 3 [10, 11] 12 (by decide) (by decide)
    exact (by decide :
      runMonitor true 3 0 [MonEvent.failed 10, MonEvent.failed 11,
        MonEvent.failed 12] =
      runMonitor true 3 0 (([10, 11] ++ [12]).map MonEvent.failed)).trans
      (h.trans (by decide))
  · exact monitor_retry_budget.2.1 5 4 9 []
  · exact (monitor_retry_budget.2.2 true 4 2 0 [MonEvent.failed 7]).1

/-- C6: forward-spec parsing is a pure function of the input string with
the four claimed shorthand values: local `"8080:localhost:80"` binds
`127.0.0.1:8080` targeting `localhost:80`; `"0.0.0.0:9090:localhost:22"`
binds `0.0.0.0:9090` targeting `localhost:22` (local and remote agree on
the 4-part form); dynamic `"1080"` binds `127.0.0.1:1080`; dynamic
`"10.0.0.1:1080"` binds unchanged. -/
theorem parse_forward_shorthand_values :
    ParseLocalForward "8080:localhost:80" =
      some { Bind := "127.0.0.1:8080", Target := "localhost:80" } ∧
    ParseLocalForward "0.0.0.0:9090:localhost:22" =
      some { Bind := "0.0.0.0:9090", Target := "localhost:22" } ∧
    ParseRemoteForward "0.0.0.0:9090:localhost:22" =
      some { Bind := "0.0.0.0:9090", Target := "localhost:22" } ∧
    ParseDynamicForward "1080" = some { Bind := "127.0.0.1:1080" } ∧
    ParseDynamicForward "10.0.0.1:1080" = some { Bind := "10.0.0.1:1080" } := by
  refine ⟨?_, ?_, ?_, ?_, ?_⟩ <;> decide

/-- Reading the first two bytes of a stream with at least two bytes. -/
theorem readN_two (a b : Nat) (rest : List Nat) :
    readN 2 (a :: b :: rest) = some ([a, b], rest) := by
  simp [readN]

/-- Reading a list's own length of bytes off its concatenation with a
tail yields the list and the tail. -/
theorem readN_append (ms tail : List Nat) :
    readN ms.length (ms ++ tail) = some (ms, tail) := by
  simp [readN]

/-- C3: the SOCKS5 handshake on a stream holding version byte `v`, the
method count, `count` method bytes and trailing input: a version other
than 5 drops the connection with no reply bytes; methods without 0x00
(no-authentication) get exactly the reply `(0x05, 0xFF)` and are dropped;
otherwise exactly `(0x05, 0x00)` is written and processing continues into
the request phase on the remaining input. -/
theorem socks5_handshake_spec (v : Nat) (ms tail : List Nat) :
    (v ≠ 5 → handshake (v :: ms.length :: (ms ++ tail)) =
      { output := [], ok := false, rest := ms ++ tail }) ∧
    (v = 5 → 0 ∉ ms → handshake (v :: ms.length :: (ms ++ tail)) =
      { output := [5, 0xFF], ok := false, rest := tail }) ∧
    (v = 5 → 0 ∈ ms → handshake (v :: ms.length :: (ms ++ tail)) =
      { output := [5, 0x00], ok := true, rest := tail }) := by
  refine ⟨?_, ?_, ?_⟩
  · intro hv
    simp [handshake, readN_two, socks5Version, hv]
  · intro hv hm
    subst hv
    simp [handshake, readN_two, readN_append, socks5Version, authNone,
      authNoAccept, hm]
  · intro hv hm
    subst hv
    simp [handshake, readN_two, readN_append, socks5Version, authNone, hm]

/-- C3 witness: a wrong version drops silently; methods `[0x02]` get the
no-acceptable-methods reply; methods `[0x00, 0x02]` get `(5, 0)` and
continue. -/
theorem socks5_handshake_spec_witness :
    handshake [4, 1, 7] = { output := [], ok := false, rest := [7] } ∧
    handshake [5, 1, 2, 9] = { output := [5, 0xFF], ok := false, rest := [9] } ∧
    handshake [5, 2, 0, 2, 9] = { output := [5, 0], ok := true, rest := [9] } := by
  refine ⟨?_, ?_, ?_⟩
  · exact (socks5_handshake_spec 4 [7] []).1 (by decide)
  · exact ((socks5_handshake_spec 5 [2] [9]).2.1 rfl (by decide)).trans (by decide)
  · exact ((socks5_handshake_spec 5 [0, 2] [9]).2.2 rfl (by decide)).trans (by decide)

/-- C4: the SOCKS5 request decoder on a version-5 stream: a command other
than CONNECT (0x01) writes the 10-byte reply with code 0x07 and drops;
address type 0x01 reads 4 raw bytes and renders them dotted-decimal;
address type 0x03 reads a length byte and that many domain bytes, taken
verbatim as a string; address type 0x04 reads 16 raw bytes rendered as
that IP address's textual form; any other address type writes the 10-byte
reply with code 0x08 and drops; finally two bytes are read as a big-endian
port and the result is the string `host ++ ":" ++ port`. -/
theorem socks5_readRequest_spec :
    (∀ (cmd rsv atyp : Nat) (rest : List Nat), cmd ≠ 1 →
      readRequest (5 :: cmd :: rsv :: atyp :: rest) =
        ([5, 7, 0, 1, 0, 0, 0, 0, 0, 0], none)) ∧
    (∀ (rsv a b c d p1 p2 : Nat) (tail : List Nat),
      readRequest (5 :: 1 :: rsv :: 1 :: a :: b :: c :: d :: p1 :: p2 :: tail) =
        ([], some (Nat.repr a ++ "." ++ Nat.repr b ++ "." ++ Nat.repr c ++
          "." ++ Nat.repr d ++ ":" ++ Nat.repr (p1 * 256 + p2)))) ∧
    (∀ (rsv p1 p2 : Nat) (ds tail : List Nat),
      readRequest (5 :: 1 :: rsv :: 3 :: ds.length :: (ds ++ p1 :: p2 :: tail)) =
        ([], some (stringOfBytes ds ++ ":" ++ Nat.repr (p1 * 256 + p2)))) ∧
    (∀ (rsv p1 p2 : Nat) (bs tail : List Nat), bs.length = 16 →
      readRequest (5 :: 1 :: rsv :: 4 :: (bs ++ p1 :: p2 :: tail)) =
        ([], some (goIPString bs ++ ":" ++ Nat.repr (p1 * 256 + p2)))) ∧
    (∀ (rsv atyp : Nat) (rest : List Nat), atyp ≠ 1 → atyp ≠ 3 → atyp ≠ 4 →
      readRequest (5 :: 1 :: rsv :: atyp :: rest) =
        ([5, 8, 0, 1, 0, 0, 0, 0, 0, 0], none)) := by
  refine ⟨?_, ?_, ?_, ?_, ?_⟩
  · intro cmd rsv atyp rest hcmd
    simp [readRequest, readN, socks5Version, cmdConnect, hcmd, sendReply,
      repCmdNotSupported, addrTypeIPv4]
  · intro rsv a b c d p1 p2 tail
    simp [readRequest, readN, socks5Version, cmdConnect, addrTypeIPv4,
      finishRequest, goIPString, ipTo4, dotted4]
  · intro rsv p1 p2 ds tail
    have h4 : readN 4 (5 :: 1 :: rsv :: 3 :: ds.length :: (ds ++ p1 :: p2 :: tail)) =
        some ([5, 1, rsv, 3], ds.length :: (ds ++ p1 :: p2 :: tail)) := by
      simp [readN]
    have h1 : readN 1 (ds.length :: (ds ++ p1 :: p2 :: tail)) =
        some ([ds.length], ds ++ p1 :: p2 :: tail) := by
      simp [readN]
    simp [readRequest, h4, h1, readN_append, socks5Version, cmdConnect,
      addrTypeIPv4, addrTypeDomain, finishRequest, readN_two]
  · intro rsv p1 p2 bs tail hlen
    have h4 : readN 4 (5 :: 1 :: rsv :: 4 :: (bs ++ p1 :: p2 :: tail)) =
        some ([5, 1, rsv, 4], bs ++ p1 :: p2 :: tail) := by
      simp [readN]
    have h16 : readN 16 (bs ++ p1 :: p2 :: tail) =
        some (bs, p1 :: p2 :: tail) := by
      rw [← hlen]
      exact readN_append bs (p1 :: p2 :: tail)
    simp [readRequest, h4, h16, socks5Version, cmdConnect, addrTypeIPv4,
      addrTypeDomain, addrTypeIPv6, finishRequest, readN_two]
  · intro rsv atyp rest h1 h3 h4
    simp [readRequest, readN, socks5Version, cmdConnect, addrTypeIPv4,
      addrTypeDomain, addrTypeIPv6, h1, h3, h4, sendReply,
      repAddrNotSupported]

/-- C4 witness: a BIND command is rejected with code 7; an IPv4 CONNECT to
10.0.0.1 port 80 and a domain CONNECT to "test" port 443 decode as
claimed; a 16-byte loopback IPv6 address renders as "::1"; address type 9
is rejected with code 8. -/
theorem socks5_readRequest_spec_witness :
    readRequest [5, 2, 0, 1, 10, 0, 0, 1, 0, 80] =
      ([5, 7, 0, 1, 0, 0, 0, 0, 0, 0], none) ∧
    readRequest [5, 1, 0, 1, 10, 0, 0, 1, 0, 80] = ([], some "10.0.0.1:80") ∧
    readRequest [5, 1, 0, 3, 4, 116, 101, 115, 116, 1, 187] =
      ([], some "test:443") ∧
    readRequest [5, 1, 0, 4, 0, 0, 0, 0, 0, 0, 0, 0, 0, 0, 0, 0, 0, 0, 0, 1,
      1, 187] = ([], some "::1:443") ∧
    readRequest [5, 1, 0, 9, 10, 0, 0, 1, 0, 80] =
      ([5, 8, 0, 1, 0, 0, 0, 0, 0, 0], none) := by
  refine ⟨?_, ?_, ?_, ?_, ?_⟩
  · exact socks5_readRequest_spec.1 2 0 1 [10, 0, 0, 1, 0, 80] (by decide)
  · exact (socks5_readRequest_spec.2.1 0 10 0 0 1 0 80 []).trans (by decide)
  · exact ((socks5_readRequest_spec.2.2.1 0 1 187 [116, 101, 115, 116]
      []).trans (by decide))
  · exact ((socks5_readRequest_spec.2.2.2.1 0 1 187
      [0, 0, 0, 0, 0, 0, 0, 0, 0, 0, 0, 0, 0, 0, 0, 1] [] (by decide)).trans
      (by decide))
  · exact socks5_readRequest_spec.2.2.2.2 0 9 [10, 0, 0, 1, 0, 80]
      (by decide) (by decide) (by decide)

/-- `To4` results always have four bytes. -/
theorem ipTo4_length (ipb : List Nat) :
    ∀ q, ipTo4 ipb = some q → q.length = 4 := by
  intro q h
  unfold ipTo4 at h
  split_ifs at h with h1 h2
  · cases h
    exact h1
  · cases h
    simp only [Bool.and_eq_true, decide_eq_true_eq] at h2
    simp [List.length_drop, h2.1.1.1]

/-- C5: every SOCKS5 reply is exactly ten bytes — version 5, the reply
code, a reserved zero, address type fixed to IPv4 — followed by four
address bytes and a two-byte big-endian port; a failed upstream dial
replies code 4 with all-zero address and port; a successful dial replies
code 0 echoing the accept-side address's `To4` form and port, with the
zero address 0.0.0.0 substituted when that address is not
IPv4-representable. -/
theorem socks5_sendReply_spec :
    (∀ (rep : Nat) (addr : Option GoTCPAddr),
      (sendReply rep addr).length = 10 ∧
      (sendReply rep addr).take 4 = [5, rep, 0, 1]) ∧
    (∀ la : GoTCPAddr,
      connectPhaseReply false la = [5, 4, 0, 1, 0, 0, 0, 0, 0, 0]) ∧
    (∀ (la : GoTCPAddr) (ipb : List Nat), la.IP = some ipb →
      (∀ q, ipTo4 ipb = some q →
        connectPhaseReply true la = [5, 0, 0, 1] ++ q ++
          [uint16OfInt la.Port / 256, uint16OfInt la.Port % 256]) ∧
      (ipTo4 ipb = none →
        connectPhaseReply true la = [5, 0, 0, 1] ++ [0, 0, 0, 0] ++
          [uint16OfInt la.Port / 256, uint16OfInt la.Port % 256])) := by
  refine ⟨?_, ?_, ?_⟩
  · intro rep addr
    match addr with
    | none => simp [sendReply, socks5Version, addrTypeIPv4]
    | some a =>
      match hip : a.IP with
      | none => simp [sendReply, hip, socks5Version, addrTypeIPv4]
      | some ipb =>
        match hq : ipTo4 ipb with
        | none => simp [sendReply, hip, hq, socks5Version, addrTypeIPv4]
        | some q =>
          have h4 := ipTo4_length ipb q hq
          constructor
          · simp [sendReply, hip, hq, h4, socks5Version, addrTypeIPv4]
          · simp [sendReply, hip, hq, socks5Version, addrTypeIPv4]
  · intro la
    simp [connectPhaseReply, sendReply, socks5Version, addrTypeIPv4,
      repHostUnreach]
  · intro la ipb hip
    constructor
    · intro q hq
      simp [connectPhaseReply, sendReply, hip, hq, socks5Version,
        addrTypeIPv4, repSuccess]
    · intro hq
      simp [connectPhaseReply, sendReply, hip, hq, socks5Version,
        addrTypeIPv4, repSuccess]

/-- C5 witness: the reply for code 3 with no address is ten bytes starting
`[5, 3, 0, 1]`; the dial-failure reply is the fixed zero reply with code
4; a successful dial from 127.0.0.1:8080 echoes that address; a successful
dial from a non-IPv4-representable (IPv6) accept address echoes
0.0.0.0. -/
theorem socks5_sendReply_spec_witness :
    (sendReply 3 none).length = 10 ∧
    connectPhaseReply false { IP := some [127, 0, 0, 1], Port := 8080 } =
      [5, 4, 0, 1, 0, 0, 0, 0, 0, 0] ∧
    connectPhaseReply true { IP := some [127, 0, 0, 1], Port := 8080 } =
      [5, 0, 0, 1, 127, 0, 0, 1, 31, 144] ∧
    connectPhaseReply true
        { IP := some [0, 0, 0, 0, 0, 0, 0, 0, 0, 0, 0, 0, 0, 0, 0, 1],
          Port := 8080 } =
      [5, 0, 0, 1, 0, 0, 0, 0, 31, 144] := by
  refine ⟨?_, ?_, ?_, ?_⟩
  · exact (socks5_sendReply_spec.1 3 none).1
  · exact socks5_sendReply_spec.2.1 { IP := some [127, 0, 0, 1], Port := 8080 }
  · exact (((socks5_sendReply_spec.2.2
      { IP := some [127, 0, 0, 1], Port := 8080 } [127, 0, 0, 1] rfl).1
      [127, 0, 0, 1] (by decide)).trans (by decide))
  · exact (((socks5_sendReply_spec.2.2
      { IP := some [0, 0, 0, 0, 0, 0, 0, 0, 0, 0, 0, 0, 0, 0, 0, 1],
        Port := 8080 } [0, 0, 0, 0, 0, 0, 0, 0, 0, 0, 0, 0, 0, 0, 0, 1]
      rfl).2 (by decide)).trans (by decide))

/-- C7 counterexample: `ParseDynamicForward "abc"` succeeds and returns
bind `127.0.0.1:abc`, whose port component is not a decimal port number,
so successful parses are not always syntactically valid `host:port`
pairs. -/
theorem parse_forward_port_not_validated :
    ParseDynamicForward "abc" = some { Bind := "127.0.0.1:abc" } ∧
    specValidHostPort "127.0.0.1:abc" = false := by
  exact ⟨by decide, by decide⟩

/-- C7 (amended): on every input accepted by `ParseLocalForward`,
`ParseRemoteForward` or `ParseDynamicForward`, each bind and target field
has the textual shape `host ++ ":" ++ port` — a colon-separated pair —
but the parsers perform no validation of the components, so the
port-position component need not be a decimal port number. -/
theorem parse_forward_shape (s : String) :
    (∀ t, ParseLocalForward s = some t →
      (∃ h p, t.Bind = h ++ ":" ++ p) ∧ (∃ h p, t.Target = h ++ ":" ++ p)) ∧
    (∀ t, ParseRemoteForward s = some t →
      (∃ h p, t.Bind = h ++ ":" ++ p) ∧ (∃ h p, t.Target = h ++ ":" ++ p)) ∧
    (∀ t, ParseDynamicForward s = some t →
      ∃ h p, t.Bind = h ++ ":" ++ p) := by
  refine ⟨?_, ?_, ?_⟩
  · intro t h
    unfold ParseLocalForward at h
    split at h
    · cases h
      exact ⟨⟨"127.0.0.1", _, rfl⟩, ⟨_, _, rfl⟩⟩
    · cases h
      exact ⟨⟨_, _, rfl⟩, ⟨_, _, rfl⟩⟩
    · cases h
  · intro t h
    unfold ParseRemoteForward at h
    split at h
    · cases h
      exact ⟨⟨"0.0.0.0", _, rfl⟩, ⟨_, _, rfl⟩⟩
    · cases h
      exact ⟨⟨_, _, rfl⟩, ⟨_, _, rfl⟩⟩
    · cases h
  · intro t h
    unfold ParseDynamicForward at h
    split at h
    case isTrue hc =>
      cases h
      have hmem : ':' ∈ s.data := of_decide_eq_true hc
      obtain ⟨l1, l2, hd⟩ := List.append_of_mem hmem
      refine ⟨String.mk l1, String.mk l2, ?_⟩
      show String.mk s.data = String.mk l1 ++ ":" ++ String.mk l2
      rw [hd]
      exact congrArg String.mk (by simp)
    case isFalse hc =>
      cases h
      exact ⟨"127.0.0.1", _, rfl⟩

/-- C7 witness: the shape guarantee at the accepted inputs
`"8080:localhost:80"` (local) and `"1080"` (dynamic). -/
theorem parse_forward_shape_witness :
    ((∃ h p, ("127.0.0.1:8080" : String) = h ++ ":" ++ p) ∧
      (∃ h p, ("localhost:80" : String) = h ++ ":" ++ p)) ∧
    (∃ h p, ("127.0.0.1:1080" : String) = h ++ ":" ++ p) := by
  constructor
  · exact (parse_forward_shape "8080:localhost:80").1
      { Bind := "127.0.0.1:8080", Target := "localhost:80" } (by decide)
  · exact (parse_forward_shape "1080").2.2 { Bind := "127.0.0.1:1080" }
      (by decide)

/-- Appending one mapped element at a time from the left builds
`init ++ l.map f`. -/
theorem foldl_append_map {α β : Type} (f : α → β) :
    ∀ (l : List α) (init : List β),
      l.foldl (fun acc s => acc ++ [f s]) init = init ++ l.map f := by
  intro l
  induction l with
  | nil => intro init; simp
  | cons a t ih => intro init; simp [ih]

/-- C8: `Manager.Start` constructs one endpoint per forward spec, local
specs first, then remote, then dynamic, in the configured order; a
startup failure reported within the grace window cancels the session and
returns that failure, while an elapsed window returns success with the
endpoints left running. -/
theorem manager_start_spec :
    (∀ cfg : TunnelsConfig,
      buildTunnels cfg = cfg.Local.map Tunnel.local ++
        cfg.Remote.map Tunnel.remote ++ cfg.Dynamic.map Tunnel.dynamic) ∧
    (∀ (ts : List Tunnel) (e : Nat), ts ≠ [] →
      managerStart ts (StartRace.failureFirst e) = (true, some e)) ∧
    (∀ ts : List Tunnel,
      managerStart ts StartRace.windowElapsed = (false, none)) := by
  refine ⟨?_, ?_, ?_⟩
  · intro cfg
    unfold buildTunnels
    rw [foldl_append_map, foldl_append_map, foldl_append_map]
    simp
  · intro ts e h
    have : ts.isEmpty = false := by
      cases ts
      · exact absurd rfl h
      · rfl
    simp [managerStart, this]
  · intro ts
    cases ts <;> simp [managerStart]

/-- C8 witness: a two-spec configuration builds its endpoints in
local-then-dynamic order, and a failure within the window cancels and
returns it. -/
theorem manager_start_spec_witness :
    buildTunnels
        { Local := [{ Bind := "127.0.0.1:8080", Target := "localhost:80" }],
          Remote := [], Dynamic := [{ Bind := "127.0.0.1:1080" }] } =
      [Tunnel.local { Bind := "127.0.0.1:8080", Target := "localhost:80" },
        Tunnel.dynamic { Bind := "127.0.0.1:1080" }] ∧
    managerStart [Tunnel.dynamic { Bind := "127.0.0.1:1080" }]
      (StartRace.failureFirst 3) = (true, some 3) := by
  constructor
  · exact (manager_start_spec.1
      { Local := [{ Bind := "127.0.0.1:8080", Target := "localhost:80" }],
        Remote := [], Dynamic := [{ Bind := "127.0.0.1:1080" }] }).trans
      (by decide)
  · exact manager_start_spec.2.1 [Tunnel.dynamic { Bind := "127.0.0.1:1080" }]
      3 (by decide)

/-- C9 counterexample: when the destination of a direction is not a
`*net.TCPConn` — as holds for the SSH-channel side of every tunnel in
this repository — the drained direction's destination write side is NOT
half-closed, contradicting the unconditional half-close claim. -/
theorem relay_halfclose_counterexample :
    (bidirectionalCopy ConnKind.tcp ConnKind.other none none
      false).toConn2.closedWrite = false := by
  decide

/-- C9 (amended): the relay returns as soon as both directions have
completed or the caller's cancellation fires, whichever happens first;
when a direction drains, the write side of its destination is half-closed
exactly when that destination is a TCP connection (other connection
kinds, such as SSH channels, are not half-closed); and a nil copy result,
end-of-stream, or connection-already-closed is never reported as a relay
failure. -/
theorem relay_spec (k1 k2 : ConnKind) (e1 e2 : Option CopyErr) (c : Bool) :
    ((bidirectionalCopy k1 k2 e1 e2 c).toConn1.closedWrite = true ↔
      k1 = ConnKind.tcp) ∧
    ((bidirectionalCopy k1 k2 e1 e2 c).toConn2.closedWrite = true ↔
      k2 = ConnKind.tcp) ∧
    ((bidirectionalCopy k1 k2 e1 e2 c).returnedBeforeBothDone = c) ∧
    (isClosedError e1 = true →
      (bidirectionalCopy k1 k2 e1 e2 c).toConn1.reported = false) ∧
    (isClosedError e2 = true →
      (bidirectionalCopy k1 k2 e1 e2 c).toConn2.reported = false) ∧
    (e1 = none → (bidirectionalCopy k1 k2 e1 e2 c).toConn1.reported = false) ∧
    (e2 = none → (bidirectionalCopy k1 k2 e1 e2 c).toConn2.reported = false) := by
  refine ⟨?_, ?_, rfl, ?_, ?_, ?_, ?_⟩
  · simp [bidirectionalCopy, copyFunc]
  · simp [bidirectionalCopy, copyFunc]
  · intro h
    simp [bidirectionalCopy, copyFunc, h]
  · intro h
    simp [bidirectionalCopy, copyFunc, h]
  · intro h
    subst h
    simp [bidirectionalCopy, copyFunc, isClosedError]
  · intro h
    subst h
    simp [bidirectionalCopy, copyFunc, isClosedError]

/-- C9 witness: a TCP-to-SSH relay whose TCP-bound direction drains at
end-of-stream half-closes the TCP side, reports nothing, and finishes
when both directions are done. -/
theorem relay_spec_witness :
    (bidirectionalCopy ConnKind.tcp ConnKind.other (some CopyErr.eof) none
      false).toConn1.closedWrite = true ∧
    (bidirectionalCopy ConnKind.tcp ConnKind.other (some CopyErr.eof) none
      false).toConn1.reported = false ∧
    (bidirectionalCopy ConnKind.tcp ConnKind.other (some CopyErr.eof) none
      false).returnedBeforeBothDone = false := by
  refine ⟨?_, ?_, ?_⟩
  · exact (relay_spec ConnKind.tcp ConnKind.other (some CopyErr.eof) none
      false).1.mpr rfl
  · exact (relay_spec ConnKind.tcp ConnKind.other (some CopyErr.eof) none
      false).2.2.2.1 (by decide)
  · exact (relay_spec ConnKind.tcp ConnKind.other (some CopyErr.eof) none
      false).2.2.1

/-- C10: with a nil transport connection handle (never connected, or
closed), `Dial`, `Listen` and `KeepAlive` each return the not-connected
error — whatever the underlying operation would have produced — and leave
the client state unchanged. -/
theorem client_nil_guard (s : ClientState) (u v : Except String Nat)
    (ka : Option String) (h : s.conn = none) :
    clientDial s u = (Except.error "SSH未连接", s) ∧
    clientListen s v = (Except.error "SSH未连接", s) ∧
    clientKeepAlive s ka = (some "SSH未连接", s) := by
  refine ⟨?_, ?_, ?_⟩ <;> simp [clientDial, clientListen, clientKeepAlive, h]

/-- C10 witness: the guards on a freshly created (never connected)
client. -/
theorem client_nil_guard_witness :
    clientDial { conn := none, closed := false } (Except.ok 7) =
      (Except.error "SSH未连接", { conn := none, closed := false }) ∧
    clientListen { conn := none, closed := false } (Except.ok 8) =
      (Except.error "SSH未连接", { conn := none, closed := false }) ∧
    clientKeepAlive { conn := none, closed := false } none =
      (some "SSH未连接", { conn := none, closed := false }) := by
  exact client_nil_guard { conn := none, closed := false } (Except.ok 7)
    (Except.ok 8) none rfl

end Autossh
